import Mathlib

/-!
Shallow embedding of `src/teachers/views.py` (teacher-facing module of the
school-management application): data model rows, the pure calculators
(attendance statistics, mark/CIE aggregation), the free-slot finder, the
timetable assembler, and the orchestrator views that the claims refer to.

Conventions of the embedding:
* Database tables are Lean lists of structure values; foreign keys are ids.
* `Model.objects.filter(...)`/`get(...)`/`get_or_create(...)` become
  `List.filter`/`List.find?`/find-or-append; `save()` on a fetched row becomes
  a map over the table that rewrites the row with that primary key.
* An HTTP view becomes a function `DB → ... → DB × Response`; Django messages
  become a list carried on the response; `get_object_or_404` returns the
  `notFound` response when the lookup fails.
* Numeric marks are `Nat` (the web framework coerces the submitted string to
  the integer mark field on save); percentages are `ℚ`.
-/

namespace SchoolMgmt

/-- A teacher row (`teachers.models.Teacher`); `user` is the id of the linked
user account, `none` when no account is linked. -/
structure Teacher where
  id : Nat
  user : Option Nat
  name : String
deriving DecidableEq, Repr

/-- An assignment row (`Assign`): (teacher, subject, class) tuple; the
academic-year/semester fields are omitted because no claim depends on them. -/
structure Assign where
  id : Nat
  teacherId : Nat
  subjectId : Nat
  classId : Nat
deriving DecidableEq, Repr

/-- One scheduled timetable slot (`AssignTime`): day-of-week and period label
tied to an assignment. -/
structure AssignTime where
  id : Nat
  assignId : Nat
  day : String
  period : String
deriving DecidableEq, Repr

/-- A named exam instance (`ExamSession`) with its finalized/status flag. -/
structure ExamSession where
  id : Nat
  assignId : Nat
  name : String
  status : Bool
deriving DecidableEq, Repr

/-- A calendar date (year, month, day), the result of parsing a
`YYYY-MM-DD` form value. -/
structure DateYMD where
  year : Nat
  month : Nat
  day : Nat
deriving DecidableEq, Repr

/-- One attendance-taking session (`AttendanceClass`) for an assignment;
`status` is 0 = Not Marked, 1 = Marked. -/
structure AttendanceClass where
  id : Nat
  assignId : Nat
  date : DateYMD
  status : Nat
deriving DecidableEq, Repr

/-- Present/absent record of one student (`students.models.Attendance`) for a
subject, date and attendance class. -/
structure Attendance where
  studentId : Nat
  subjectId : Nat
  attendanceClassId : Nat
  date : DateYMD
  status : Bool
deriving DecidableEq, Repr

/-- A student row; `usn` is the University Serial Number used as the form
field key, `classId` the class the student belongs to. -/
structure Student where
  id : Nat
  usn : String
  classId : Nat
deriving DecidableEq, Repr

/-- One numeric score (`Marks.marks1`) of a student-subject enrollment under a
named exam session.  The enrollment (`StudentSubject`) foreign key is
represented by the (studentId, subjectId) pair. -/
structure Mark where
  studentId : Nat
  subjectId : Nat
  name : String
  marks1 : Nat
deriving DecidableEq, Repr

/-- The relational database state visible to this module.
`studentSubjects` holds the (studentId, subjectId) enrollment pairs. -/
structure DB where
  teachers : List Teacher
  assigns : List Assign
  assignTimes : List AssignTime
  examSessions : List ExamSession
  attendanceClasses : List AttendanceClass
  attendances : List Attendance
  students : List Student
  studentSubjects : List (Nat × Nat)
  marks : List Mark
deriving DecidableEq, Repr

/-- A user-visible message (`django.contrib.messages`). -/
inductive Msg
  | error (text : String)
  | success (text : String)
  | warning (text : String)
deriving DecidableEq, Repr

/-- The outcome of a view: a rendered template, a redirect (identified by its
route name), a 404, or an uncaught exception (HTTP 500). -/
inductive HttpResult
  | render (template : String)
  | redirect (target : String)
  | notFound
  | serverError
deriving DecidableEq, Repr

/-- What a view hands back to the web layer: queued messages plus an
HTTP result. -/
structure Response where
  msgs : List Msg
  result : HttpResult
deriving DecidableEq, Repr

/-- Failure response of `get_object_or_404`. -/
def notFoundResp : Response := { msgs := [], result := HttpResult.notFound }

/-- Is the HTTP result a redirect? -/
def HttpResult.isRedirect : HttpResult → Bool
  | HttpResult.redirect _ => true
  | _ => false

def findTeacher (db : DB) (tid : Nat) : Option Teacher :=
  db.teachers.find? (fun t => t.id == tid)

def findAssign (db : DB) (aid : Nat) : Option Assign :=
  db.assigns.find? (fun a => a.id == aid)

def findAssignTime (db : DB) (i : Nat) : Option AssignTime :=
  db.assignTimes.find? (fun r => r.id == i)

def findAttendanceClass (db : DB) (i : Nat) : Option AttendanceClass :=
  db.attendanceClasses.find? (fun ac => ac.id == i)

def findExamSession (db : DB) (i : Nat) : Option ExamSession :=
  db.examSessions.find? (fun e => e.id == i)

/-- Embeds `class_obj.student_set.all()`. -/
def studentsOfClass (db : DB) (classId : Nat) : List Student :=
  db.students.filter (fun s => s.classId == classId)

-- ---------------------------
-- Utilities
-- ---------------------------

/-- Python `round(x, 1)` over exact rationals: round `x*10` to the nearest
integer, ties to the even integer (banker rounding), divide by 10. -/
def roundHalfEven (q : ℚ) : ℤ :=
  let f : ℤ := ⌊q⌋
  let r : ℚ := q - (f : ℚ)
  if r < 1/2 then f
  else if 1/2 < r then f + 1
  else if Even f then f else f + 1

/-- Python `round(x, 1)` (one decimal place). -/
def pyRound1 (q : ℚ) : ℚ := (roundHalfEven (q * 10) : ℚ) / 10

/-- The record returned by `_calculate_attendance_statistics`. -/
structure AttendanceStats where
  total_students : Nat
  present_students : Nat
  absent_students : Nat
  attendance_percentage : ℚ
deriving DecidableEq, Repr

/-- Embeds `_calculate_attendance_statistics` (views.py lines 34-50): counts of the
queryset, of its `status=True` subset, their difference, and the rounded
percentage (0 when the queryset is empty). -/
def calculateAttendanceStatistics (records : List Attendance) : AttendanceStats :=
  let total_students := records.length
  let present_students := (records.filter (fun a => a.status)).length
  let absent_students := total_students - present_students
  let attendance_percentage : ℚ :=
    if total_students > 0 then
      pyRound1 ((present_students : ℚ) / (total_students : ℚ) * 100)
    else 0
  { total_students := total_students
    present_students := present_students
    absent_students := absent_students
    attendance_percentage := attendance_percentage }

-- ---------------------------
-- Mark / CIE aggregation (view_students, lines 783-792)
-- ---------------------------

/-- Embeds `sum(mark.marks1 for mark in marks)` (views.py line 784). -/
def total_marks (rows : List Mark) : Nat :=
  (rows.map (fun m => m.marks1)).sum

/-- Embeds `marks_list = [m.marks1 for m in marks]` (views.py line 791). -/
def marks_list (rows : List Mark) : List Nat :=
  rows.map (fun m => m.marks1)

/-- Embeds `math.ceil(sum(marks_list[:CIE_CALCULATION_LIMIT]) / CIE_DIVISOR) if
marks_list else 0` (views.py line 792).  The constants
`CIE_CALCULATION_LIMIT` / `CIE_DIVISOR` live in `utils/constant.py` (not part
of the analysed sources), so they are parameters `K` / `D` here; the division
is exact rational division as the spec formula `ceil(sum/D)` reads. -/
def cie_score (rows : List Mark) (K D : Nat) : ℤ :=
  if marks_list rows ≠ [] then
    ⌈((((marks_list rows).take K).sum : ℚ) / (D : ℚ))⌉
  else 0

-- ---------------------------
-- Exams / Marks orchestrators
-- ---------------------------

/-- Next autoincrement primary key for `ExamSession`. -/
def nextExamId (db : DB) : Nat :=
  (db.examSessions.foldl (fun m e => max m e.id) 0) + 1

/-- Embeds `ExamSession.objects.get_or_create(assign=assignment, name=exam_name,
defaults=(status := False))` (views.py lines 196-198).  Returns the updated
database and the `created` flag. -/
def getOrCreateExam (db : DB) (assignId : Nat) (name : String) : DB × Bool :=
  match db.examSessions.find? (fun e => e.assignId == assignId && e.name == name) with
  | some _ => (db, false)
  | none =>
      ({ db with examSessions :=
          db.examSessions ++ [{ id := nextExamId db, assignId := assignId,
                                name := name, status := false }] },
       true)

/-- Embeds `getattr(assignment.teacher, user, None)`: the linked user account of the
owner teacher, if any. -/
def ownerUserOf (db : DB) (assignment : Assign) : Option Nat :=
  match findTeacher db assignment.teacherId with
  | some t => t.user
  | none => none

/-- Message texts of the module (the create/exists/missing-name messages of
`t_marks_list` and the shared access-denied message). -/
def accessDeniedMessage : String :=
  "Bạn không có quyền truy cập assignment này!"

def examCreatedMessage (n : String) : String :=
  "Bài kiểm tra (" ++ n ++ ") đã được tạo thành công!"

def examExistsMessage (n : String) : String :=
  "Bài kiểm tra (" ++ n ++ ") đã tồn tại!"

def examNameMissingMessage : String :=
  "Vui lòng nhập tên bài kiểm tra!"

/-- The POST body of `t_marks_list` when `create_exam` is submitted:
the optional `exam_name` field. -/
structure CreateExamPost where
  exam_name : Option String
deriving DecidableEq, Repr

/-- Embeds `t_marks_list` (views.py lines 180-224).  `userId` is `request.user`,
`post = some p` models a POST with `create_exam` in the body, `none` a plain
GET.  Mirrors: 404 on unknown assignment; owner check
`if owner_user and owner_user != request.user` (skipped when the teacher has
no linked user); idempotent get-or-create of the exam session followed by a
redirect; otherwise render. -/
def t_marks_list (db : DB) (userId assignId : Nat)
    (post : Option CreateExamPost) : DB × Response :=
  match findAssign db assignId with
  | none => (db, notFoundResp)
  | some assignment =>
    if (ownerUserOf db assignment).isSome ∧
        ownerUserOf db assignment ≠ some userId then
      (db, { msgs := [Msg.error accessDeniedMessage],
             result := HttpResult.redirect ("teacher_dashboard") })
    else
      match post with
      | some p =>
        match p.exam_name with
        | some name =>
          if name ≠ "" then
            let r := getOrCreateExam db assignment.id name
            let msg := if r.2 then Msg.success (examCreatedMessage name)
                       else Msg.warning (examExistsMessage name)
            (r.1, { msgs := [msg], result := HttpResult.redirect ("t_marks_list") })
          else
            (db, { msgs := [Msg.error examNameMissingMessage],
                   result := HttpResult.redirect ("t_marks_list") })
        | none =>
          (db, { msgs := [Msg.error examNameMissingMessage],
                 result := HttpResult.redirect ("t_marks_list") })
      | none => (db, { msgs := [], result := HttpResult.render ("t_marks_list.html") })

/-- Embeds `student_subject.marks_set.get_or_create(name=...)` followed by
`marks_instance.marks1 = v; marks_instance.save()` (views.py lines 294-296):
create the row when the (enrollment, exam name) key is absent, then write the
score either way. -/
def upsertMark (ms : List Mark) (sid subj : Nat) (name : String) (v : Nat) :
    List Mark :=
  if ms.any (fun m => m.studentId == sid && m.subjectId == subj && m.name == name) then
    ms.map (fun m =>
      if m.studentId == sid && m.subjectId == subj && m.name == name then
        { m with marks1 := v }
      else m)
  else
    ms ++ [{ studentId := sid, subjectId := subj, name := name, marks1 := v }]

/-- The per-student loop of `marks_confirm` (views.py lines 285-296): for each
student of the class, skip when the form has no value for the USN of the student or
the student is not enrolled in the subject, otherwise upsert the mark. -/
def marksConfirmLoop (db : DB) (students : List Student) (subjectId : Nat)
    (examName : String) (form : String → Option Nat) : List Mark :=
  students.foldl (fun acc s =>
    match form s.usn with
    | none => acc
    | some v =>
      if db.studentSubjects.any (fun p => p.1 == s.id && p.2 == subjectId) then
        upsertMark acc s.id subjectId examName v
      else acc) db.marks

/-- Embeds `marks_confirm` (views.py lines 276-301): fetch the exam session (404 when
absent), upsert every submitted mark of an enrolled student, set the session
status to finalized, redirect to the marks list.  There is no ownership check
on this path. -/
def marks_confirm (db : DB) (_userId : Nat) (sessionId : Nat)
    (form : String → Option Nat) : DB × Response :=
  match findExamSession db sessionId with
  | none => (db, notFoundResp)
  | some exam_session =>
    match findAssign db exam_session.assignId with
    | none => (db, notFoundResp)
    | some assignment =>
      let students := studentsOfClass db assignment.classId
      let marks2 := marksConfirmLoop db students assignment.subjectId
                      exam_session.name form
      let exams2 := db.examSessions.map (fun e =>
        if e.id == sessionId then { e with status := true } else e)
      ({ db with marks := marks2, examSessions := exams2 },
       { msgs := [], result := HttpResult.redirect ("t_marks_list") })

/-- Embeds `view_students` (views.py lines 765-832): 404 on unknown assignment, the
same owner check as `t_marks_list`, then a pure read rendering the roster (the
per-student aggregation is `total_marks` / `cie_score` above). -/
def view_students (db : DB) (userId assignId : Nat) : DB × Response :=
  match findAssign db assignId with
  | none => (db, notFoundResp)
  | some assignment =>
    if (ownerUserOf db assignment).isSome ∧
        ownerUserOf db assignment ≠ some userId then
      (db, { msgs := [Msg.error accessDeniedMessage],
             result := HttpResult.redirect ("teacher_dashboard") })
    else
      (db, { msgs := [], result := HttpResult.render ("t_view_students.html") })

-- ---------------------------
-- Attendance orchestrators
-- ---------------------------

/-- Modelled from the spec: `DATE_FORMAT` lives in `utils/constant.py`, which
is not among the analysed sources; the spec fixes the submitted format as
`YYYY-MM-DD` and `strptime` failure as a `ValueError`.  A string parses when
it is three dash-separated decimal fields, a 4-digit year and in-range month
and day. -/
def splitOnDash : List Char → List (List Char)
  | [] => [[]]
  | c :: cs =>
    let r := splitOnDash cs
    if c = '-' then [] :: r
    else
      match r with
      | [] => [[c]]
      | g :: gs => (c :: g) :: gs

/-- Decimal value of a non-empty digit group, `none` otherwise. -/
def decDigits? (cs : List Char) : Option Nat :=
  match cs with
  | [] => none
  | _ =>
    cs.foldl (fun acc c =>
      match acc with
      | none => none
      | some n =>
        if '0' ≤ c ∧ c ≤ '9' then some (n * 10 + (c.toNat - 48)) else none)
      (some 0)

def parseDate (s : String) : Option DateYMD :=
  match splitOnDash s.toList with
  | [y, m, d] =>
    match decDigits? y, decDigits? m, decDigits? d with
    | some yn, some mn, some dn =>
      if y.length == 4 && 1 ≤ mn && mn ≤ 12 && 1 ≤ dn && dn ≤ 31 then
        some { year := yn, month := mn, day := dn }
      else none
    | _, _, _ => none
  | _ => none

/-- Next autoincrement primary key for `AttendanceClass`. -/
def nextAttendanceClassId (db : DB) : Nat :=
  (db.attendanceClasses.foldl (fun m ac => max m ac.id) 0) + 1

/-- The `create_attendance` body of `t_class_date` (views.py lines 530-532):
`if not AttendanceClass.objects.filter(assign=..., date=...).exists():
AttendanceClass.objects.create(assign=..., date=..., status=0)`. -/
def createAttendanceClassIfAbsent (db : DB) (assignId : Nat) (d : DateYMD) : DB :=
  if db.attendanceClasses.any (fun ac => ac.assignId == assignId && ac.date == d) then
    db
  else
    { db with attendanceClasses :=
        db.attendanceClasses ++ [{ id := nextAttendanceClassId db,
                                   assignId := assignId, date := d, status := 0 }] }

/-- One step of the attendance-confirm loop (views.py lines 544-553 and
628-637): `status = request.POST.get(student.USN) == present`, then
`Attendance.objects.get_or_create(student=..., subject=..., attendanceclass=...,
date=..., defaults=(status := status))`, updating `status` when the row
already exists. -/
def upsertAttendance (atts : List Attendance) (s : Student)
    (subjectId asscId : Nat) (d : DateYMD) (st : Bool) : List Attendance :=
  if atts.any (fun a => a.studentId == s.id && a.subjectId == subjectId &&
                        a.attendanceClassId == asscId && a.date == d) then
    atts.map (fun a =>
      if a.studentId == s.id && a.subjectId == subjectId &&
         a.attendanceClassId == asscId && a.date == d then
        { a with status := st }
      else a)
  else
    atts ++ [{ studentId := s.id, subjectId := subjectId,
               attendanceClassId := asscId, date := d, status := st }]

/-- The whole per-student loop of the attendance-confirm paths: a missing or
non-`present` form value records the student as absent. -/
def confirmAttendanceLoop (atts : List Attendance) (students : List Student)
    (subjectId asscId : Nat) (d : DateYMD) (form : String → Option String) :
    List Attendance :=
  students.foldl (fun acc s =>
    upsertAttendance acc s subjectId asscId d (form s.usn == some ("present"))) atts

/-- The transactional body shared by the `confirm_attendance` branch of
`t_class_date`
branch and the `confirm` view: upsert one `Attendance` row per student of the
class, then set the session status to 1 (Marked). -/
def confirmAttendanceCore (db : DB) (assc : AttendanceClass)
    (subjectId classId : Nat) (form : String → Option String) : DB :=
  { db with
    attendances := confirmAttendanceLoop db.attendances
                     (studentsOfClass db classId) subjectId assc.id assc.date form
    attendanceClasses := db.attendanceClasses.map (fun ac =>
      if ac.id == assc.id then { ac with status := 1 } else ac) }

/-- The three POST bodies `t_class_date` distinguishes (views.py lines
526-561): `create_attendance` with the raw `attendance_date` field,
`confirm_attendance` with `assc_id` and one field per student USN,
`select_attendance` with `assc_id`. -/
inductive ClassDatePost
  | createAttendance (dateStr : Option String)
  | confirmAttendance (asscId : Option Nat) (form : String → Option String)
  | selectAttendance (asscId : Option Nat)

def invalidDateMessage : String := "Invalid date format. Please use YYYY-MM-DD."

def attendanceRecordedMessage : String := "Attendance successfully recorded."

/-- Embeds `t_class_date` (views.py lines 505-584).  404 on unknown assignment; no
ownership check.  `create_attendance`: a malformed date redirects with an
error, a missing field escapes the `except ValueError` handler (a `TypeError`
from `strptime(None, ...)`, i.e. a server error), a valid date creates the
session if absent and then FALLS THROUGH TO RENDER the page.
`confirm_attendance`: 404 on unknown session id, otherwise the upsert loop,
status := 1 and a redirect.  `select_attendance` and GET render. -/
def t_class_date (db : DB) (assignId : Nat) (post : Option ClassDatePost) :
    DB × Response :=
  match findAssign db assignId with
  | none => (db, notFoundResp)
  | some assign =>
    match post with
    | some (ClassDatePost.createAttendance dateStr) =>
      match dateStr with
      | none => (db, { msgs := [], result := HttpResult.serverError })
      | some s =>
        match parseDate s with
        | none =>
          (db, { msgs := [Msg.error invalidDateMessage],
                 result := HttpResult.redirect ("t_class_date") })
        | some d =>
          (createAttendanceClassIfAbsent db assign.id d,
           { msgs := [], result := HttpResult.render ("t_class_date.html") })
    | some (ClassDatePost.confirmAttendance asscIdOpt form) =>
      match asscIdOpt with
      | none => (db, notFoundResp)
      | some asscId =>
        match findAttendanceClass db asscId with
        | none => (db, notFoundResp)
        | some assc =>
          (confirmAttendanceCore db assc assign.subjectId assign.classId form,
           { msgs := [Msg.success attendanceRecordedMessage],
             result := HttpResult.redirect ("t_class_date") })
    | some (ClassDatePost.selectAttendance asscIdOpt) =>
      match asscIdOpt with
      | none => (db, notFoundResp)
      | some asscId =>
        match findAttendanceClass db asscId with
        | none => (db, notFoundResp)
        | some _ =>
          (db, { msgs := [], result := HttpResult.render ("t_class_date.html") })
    | none => (db, { msgs := [], result := HttpResult.render ("t_class_date.html") })

/-- Embeds `confirm` (views.py lines 618-642): fetch the attendance class (404 when
absent), resolve its assignment, run the same upsert loop over every student
of the class, set status := 1, redirect.  No ownership check. -/
def confirm (db : DB) (asscId : Nat) (form : String → Option String) :
    DB × Response :=
  match findAttendanceClass db asscId with
  | none => (db, notFoundResp)
  | some assc =>
    match findAssign db assc.assignId with
    | none => (db, notFoundResp)
    | some assign =>
      (confirmAttendanceCore db assc assign.subjectId assign.classId form,
       { msgs := [Msg.success attendanceRecordedMessage],
         result := HttpResult.redirect ("t_class_date") })

-- ---------------------------
-- Free teachers for a slot (views.py lines 470-499)
-- ---------------------------

/-- Embeds `AssignTime.objects.filter(assign__teacher=t)`: all scheduled slots of
teacher `t`. -/
def teacherAssignTimes (db : DB) (t : Teacher) : List AssignTime :=
  db.assignTimes.filter (fun r =>
    db.assigns.any (fun a => a.id == r.assignId && a.teacherId == t.id))

/-- The busy test of `free_teachers` (views.py line 483): some slot of the
teacher matches the queried (day, period). -/
def isBusy (db : DB) (t : Teacher) (slot : AssignTime) : Bool :=
  (teacherAssignTimes db t).any (fun r =>
    r.period == slot.period && r.day == slot.day)

/-- The qualification test (views.py line 484):
`t.assign_set.filter(subject=required_subject).exists()`. -/
def hasSubjectKnowledge (db : DB) (t : Teacher) (subjectId : Nat) : Bool :=
  db.assigns.any (fun a => a.teacherId == t.id && a.subjectId == subjectId)

/-- The partition loop of `free_teachers` (views.py lines 481-487): drop the
busy teachers, split the free ones by subject knowledge, preserving the
enumeration order. -/
def partitionFreeTeachers (db : DB) (slot : AssignTime) (subjectId : Nat) :
    List Teacher → List Teacher × List Teacher
  | [] => ([], [])
  | t :: ts =>
    let rest := partitionFreeTeachers db slot subjectId ts
    if ¬ isBusy db t slot then
      if hasSubjectKnowledge db t subjectId then (t :: rest.1, rest.2)
      else (rest.1, t :: rest.2)
    else rest

/-- Embeds `Teacher.objects.filter(assign__class_id=...).distinct()`: the candidate
teachers, those with any assignment to the class. -/
def teachersOfClass (db : DB) (classId : Nat) : List Teacher :=
  db.teachers.filter (fun t =>
    db.assigns.any (fun a => a.teacherId == t.id && a.classId == classId))

/-- The two lists (`ft_list`, `teachers_without_knowledge`) computed by
`free_teachers` for a slot id, `none` when the slot or its assignment is
missing. -/
def free_teachers_lists (db : DB) (asstId : Nat) :
    Option (List Teacher × List Teacher) :=
  match findAssignTime db asstId with
  | none => none
  | some slot =>
    match findAssign db slot.assignId with
    | none => none
    | some ass =>
      some (partitionFreeTeachers db slot ass.subjectId
              (teachersOfClass db ass.classId))

-- ---------------------------
-- Timetable assembler (views.py lines 422-438)
-- ---------------------------

/-- Modelled from the spec: `BREAK_PERIOD` and `LUNCH_PERIOD` are the two
fixed non-teaching marker labels of `utils/constant.py` (not among the
analysed sources), distinct from every teaching slot label. -/
def BREAK_PERIOD : String := "Break"

/-- Modelled from the spec: see `BREAK_PERIOD`. -/
def LUNCH_PERIOD : String := "Lunch"

/-- Modelled from the spec: `TIME_SLOTS` of `utils/constant.py` (not among the
analysed sources) is a fixed ordered list of teaching slot labels; the two
labels the assembler compares against (views.py lines 426, 428) are among
them. -/
def TIME_SLOTS : List String :=
  ["8:30 - 9:30", "9:30 - 10:30", "10:45 - 11:45", "11:45 - 12:40",
   "12:40 - 1:30", "1:45 - 2:45", "2:45 - 3:45"]

/-- The slot-list construction of `t_timetable` (views.py lines 422-429): copy
the base slots in order, splicing the break marker right after
`9:30 - 10:30` and the lunch marker right after `12:40 - 1:30`. -/
def buildTimeSlots : List String → List String
  | [] => []
  | slot :: rest =>
    if slot = "9:30 - 10:30" then
      slot :: BREAK_PERIOD :: buildTimeSlots rest
    else if slot = "12:40 - 1:30" then
      slot :: LUNCH_PERIOD :: buildTimeSlots rest
    else
      slot :: buildTimeSlots rest

/-- One iteration of the grid-filling loop (views.py lines 432-438): when the
day of the row is a grid day and its period a grid slot, overwrite the cell with
the assignment; a cell holds the assignment id (standing for the
`(subject, teacher, assignment)` record the code attaches). -/
def timetableStep (days ts : List String)
    (grid : String → String → Option Nat) (r : AssignTime) :
    String → String → Option Nat :=
  if r.day ∈ days ∧ r.period ∈ ts then
    fun d p => if d = r.day ∧ p = r.period then some r.assignId else grid d p
  else grid

/-- The grid of `t_timetable`: start from the all-`None` dictionary and fold
the filtered `AssignTime` rows through `timetableStep`. -/
def buildTimetable (days ts : List String) (rows : List AssignTime) :
    String → String → Option Nat :=
  rows.foldl (timetableStep days ts) (fun _ _ => none)

-- ---------------------------
-- The operations of the module as one step type (for the status state machines)
-- ---------------------------

/-- One invocation of a view of the module.  The four constructors with
payloads are the write-capable entry points embedded above; the remaining
views (`teacher_dashboard`, `t_clas`, `t_marks_entry`, `edit_marks`,
`t_timetable`, `free_teachers`, `t_attendance`, `edit_att`, `view_att`,
`t_report`, `view_students`) perform no ORM write in the source, so their
database effect is the identity. -/
inductive Op
  | tMarksListOp (userId assignId : Nat) (post : Option CreateExamPost)
  | marksConfirmOp (userId sessionId : Nat) (form : String → Option Nat)
  | tClassDateOp (assignId : Nat) (post : Option ClassDatePost)
  | confirmOp (asscId : Nat) (form : String → Option String)
  | viewStudentsOp (userId assignId : Nat)
  | teacherDashboardOp
  | tClasOp
  | tMarksEntryOp
  | editMarksOp
  | tTimetableOp
  | freeTeachersOp
  | tAttendanceOp
  | editAttOp
  | viewAttOp
  | tReportOp

/-- The database after one view invocation. -/
def applyOp (db : DB) : Op → DB
  | Op.tMarksListOp u a p => (t_marks_list db u a p).1
  | Op.marksConfirmOp u s f => (marks_confirm db u s f).1
  | Op.tClassDateOp a p => (t_class_date db a p).1
  | Op.confirmOp c f => (confirm db c f).1
  | Op.viewStudentsOp u a => (view_students db u a).1
  | Op.teacherDashboardOp => db
  | Op.tClasOp => db
  | Op.tMarksEntryOp => db
  | Op.editMarksOp => db
  | Op.tTimetableOp => db
  | Op.freeTeachersOp => db
  | Op.tAttendanceOp => db
  | Op.editAttOp => db
  | Op.viewAttOp => db
  | Op.tReportOp => db

/-- Is the operation the marks-confirm write path? -/
def isMarksConfirmOp : Op → Bool
  | Op.marksConfirmOp _ _ _ => true
  | _ => false

/-- Is the operation one of the attendance-confirm write paths (the `confirm`
view, or `t_class_date` with a `confirm_attendance` POST)? -/
def isAttendanceConfirmOp : Op → Bool
  | Op.confirmOp _ _ => true
  | Op.tClassDateOp _ (some (ClassDatePost.confirmAttendance _ _)) => true
  | _ => false

/-- Every finalized exam session stays finalized (by id). -/
def ExamStatusMono (l l2 : List ExamSession) : Prop :=
  ∀ e ∈ l, e.status = true → ∃ e2 ∈ l2, e2.id = e.id ∧ e2.status = true

/-- No exam session becomes finalized: every finalized session of the new
state was already finalized. -/
def ExamStatusNoNew (l l2 : List ExamSession) : Prop :=
  ∀ e2 ∈ l2, e2.status = true → ∃ e ∈ l, e.id = e2.id ∧ e.status = true

/-- Every marked attendance class stays marked (by id). -/
def AttClassStatusMono (l l2 : List AttendanceClass) : Prop :=
  ∀ ac ∈ l, ac.status = 1 → ∃ ac2 ∈ l2, ac2.id = ac.id ∧ ac2.status = 1

/-- No attendance class becomes marked: every marked class of the new state
was already marked. -/
def AttClassStatusNoNew (l l2 : List AttendanceClass) : Prop :=
  ∀ ac2 ∈ l2, ac2.status = 1 → ∃ ac ∈ l, ac.id = ac2.id ∧ ac.status = 1

-- ---------------------------
-- Named conclusions used by claim statements
-- ---------------------------

/-- The access-denial response: the error message is queued, the user is
redirected to the dashboard, and the database is untouched. -/
def DeniesAccess (out : DB × Response) (db : DB) : Prop :=
  out = (db, { msgs := [Msg.error accessDeniedMessage],
               result := HttpResult.redirect ("teacher_dashboard") })

/-- After the attendance-confirm write, every student of the class has an
`Attendance` row for (student, subject, session, session date) whose status is
true exactly when the form carried `present` under the USN of the student. -/
def RecordsAllStudents (db2 : DB) (students : List Student)
    (subjectId asscId : Nat) (d : DateYMD) (form : String → Option String) : Prop :=
  ∀ s ∈ students, ∃ a ∈ db2.attendances,
    a.studentId = s.id ∧ a.subjectId = subjectId ∧
    a.attendanceClassId = asscId ∧ a.date = d ∧
    a.status = (form s.usn == some ("present"))

-- ---------------------------
-- Concrete fixtures used by witnesses and counterexamples
-- ---------------------------

/-- Teacher A: owns assignment 1, linked to user 10. -/
def teacherA : Teacher := { id := 1, user := some 10, name := "A" }

/-- Teacher B: assigned to the same class, linked to user 20. -/
def teacherB : Teacher := { id := 2, user := some 20, name := "B" }

/-- Teacher C: no linked user account. -/
def teacherC : Teacher := { id := 3, user := none, name := "C" }

def assign1 : Assign := { id := 1, teacherId := 1, subjectId := 1, classId := 1 }

def assign2 : Assign := { id := 2, teacherId := 2, subjectId := 2, classId := 1 }

def assign3 : Assign := { id := 3, teacherId := 3, subjectId := 3, classId := 2 }

def slotA : AssignTime :=
  { id := 1, assignId := 1, day := "Monday", period := "8:30 - 9:30" }

def slotB : AssignTime :=
  { id := 2, assignId := 2, day := "Monday", period := "8:30 - 9:30" }

def examPending : ExamSession :=
  { id := 1, assignId := 1, name := "CIE-1", status := false }

def examDone : ExamSession :=
  { id := 2, assignId := 1, name := "CIE-2", status := true }

def attClass1 : AttendanceClass :=
  { id := 1, assignId := 1, date := { year := 2024, month := 1, day := 10 },
    status := 0 }

def student1 : Student := { id := 1, usn := "USN1", classId := 1 }

def student2 : Student := { id := 2, usn := "USN2", classId := 1 }

/-- The base database fixture. -/
def db0 : DB :=
  { teachers := [teacherA, teacherB, teacherC]
    assigns := [assign1, assign2, assign3]
    assignTimes := [slotA, slotB]
    examSessions := [examPending, examDone]
    attendanceClasses := [attClass1]
    attendances := []
    students := [student1, student2]
    studentSubjects := [(1, 1), (2, 1)]
    marks := [] }

/-- An empty form (no field submitted). -/
def emptyNatForm : String → Option Nat := fun _ => none

/-- A form marking USN1 present and leaving USN2 unsubmitted. -/
def attForm0 : String → Option String :=
  fun u => if u = "USN1" then some ("present") else none

/-- Concrete mark rows of one student-subject enrollment, used by the C2
witness. -/
def markRows0 : List Mark :=
  [{ studentId := 1, subjectId := 1, name := "CIE-1", marks1 := 18 },
   { studentId := 1, subjectId := 1, name := "CIE-2", marks1 := 7 },
   { studentId := 1, subjectId := 1, name := "SEE", marks1 := 40 }]

/-- A concrete operation that is not a confirm path, used by the C7
witness. -/
def op0 : Op := Op.tMarksListOp 10 1 (some { exam_name := some ("CIE-3") })

/-- Concrete attendance rows (one present, one absent) for the C3 witness. -/
def attRecords0 : List Attendance :=
  [{ studentId := 1, subjectId := 1, attendanceClassId := 1,
     date := { year := 2024, month := 1, day := 10 }, status := true },
   { studentId := 2, subjectId := 1, attendanceClassId := 1,
     date := { year := 2024, month := 1, day := 10 }, status := false }]

-- ===========================
-- Theorems
-- ===========================

/-- C3: for every collection of attendance records (including the empty one),
`_calculate_attendance_statistics` returns counts with
present + absent = total, percentage = round(present/total*100, 1) when
total > 0, and percentage = 0 when total = 0. -/
theorem attendance_statistics_correct (records : List Attendance) :
    (calculateAttendanceStatistics records).present_students +
      (calculateAttendanceStatistics records).absent_students =
      (calculateAttendanceStatistics records).total_students ∧
    ((calculateAttendanceStatistics records).total_students > 0 →
      (calculateAttendanceStatistics records).attendance_percentage =
        pyRound1 (((calculateAttendanceStatistics records).present_students : ℚ) /
          ((calculateAttendanceStatistics records).total_students : ℚ) * 100)) ∧
    ((calculateAttendanceStatistics records).total_students = 0 →
      (calculateAttendanceStatistics records).attendance_percentage = 0) := by
  refine ⟨?_, ?_, ?_⟩
  · have h := List.length_filter_le (fun a => a.status) records
    simp only [calculateAttendanceStatistics]
    omega
  · intro h
    simp only [calculateAttendanceStatistics] at h ⊢
    rw [if_pos h]
  · intro h
    simp only [calculateAttendanceStatistics] at h ⊢
    rw [if_neg (by omega)]

/-- Witness for C3 at a concrete two-record input. -/
theorem attendance_statistics_correct_witness :
    (calculateAttendanceStatistics attRecords0).present_students +
      (calculateAttendanceStatistics attRecords0).absent_students =
      (calculateAttendanceStatistics attRecords0).total_students ∧
    (calculateAttendanceStatistics attRecords0).attendance_percentage =
      pyRound1 (((calculateAttendanceStatistics attRecords0).present_students : ℚ) /
        ((calculateAttendanceStatistics attRecords0).total_students : ℚ) * 100) :=
  ⟨(attendance_statistics_correct attRecords0).1,
   (attendance_statistics_correct attRecords0).2.1 (by decide)⟩

/-- C2: for every list of numeric marks of one student in one subject, the
computed total equals the sum of all marks, and the computed CIE score equals
`ceil(sum(first K marks) / D)` for the configured `K`, `D`, and equals 0 when
the list is empty. -/
theorem cie_total_correct (rows : List Mark) (K D : Nat) :
    total_marks rows = (marks_list rows).sum ∧
    (rows ≠ [] → cie_score rows K D =
      ⌈((((marks_list rows).take K).sum : ℚ) / (D : ℚ))⌉) ∧
    (rows = [] → cie_score rows K D = 0) := by
  refine ⟨rfl, ?_, ?_⟩
  · intro h
    have hml : marks_list rows ≠ [] := by
      simpa [marks_list] using h
    simp [cie_score, hml]
  · intro h
    subst h
    simp [cie_score, marks_list]

/-- Witness for C2 at three concrete mark rows (scores 18, 7, 40) with
K = 2, D = 10. -/
theorem cie_total_correct_witness :
    total_marks markRows0 = (marks_list markRows0).sum ∧
    cie_score markRows0 2 10 =
      ⌈((((marks_list markRows0).take 2).sum : ℚ) / ((10 : Nat) : ℚ))⌉ :=
  ⟨(cie_total_correct markRows0 2 10).1,
   (cie_total_correct markRows0 2 10).2.1 (by decide)⟩

/-- C5: creating an `ExamSession` whose (assign, name) key already exists, or
an `AttendanceClass` whose (assign, date) key already exists, leaves the
database unchanged: no second row for the key, and the status of the existing row
untouched. -/
theorem session_creation_idempotent (db : DB) (assignId : Nat) (name : String)
    (d : DateYMD)
    (hE : ∃ e ∈ db.examSessions, e.assignId = assignId ∧ e.name = name)
    (hA : ∃ ac ∈ db.attendanceClasses, ac.assignId = assignId ∧ ac.date = d) :
    (getOrCreateExam db assignId name).1 = db ∧
    createAttendanceClassIfAbsent db assignId d = db := by
  constructor
  · unfold getOrCreateExam
    split
    · rfl
    · rename_i hnone
      rw [List.find?_eq_none] at hnone
      obtain ⟨e, he, h1, h2⟩ := hE
      exact absurd (by simp [h1, h2]) (hnone e he)
  · unfold createAttendanceClassIfAbsent
    rw [if_pos]
    obtain ⟨ac, hac, h1, h2⟩ := hA
    rw [List.any_eq_true]
    exact ⟨ac, hac, by simp [h1, h2]⟩

/-- Witness for C5: re-creating exam (assign 1, "CIE-1") and attendance class
(assign 1, 2024-01-10) in the fixture leaves the database unchanged. -/
theorem session_creation_idempotent_witness :
    (getOrCreateExam db0 1 ("CIE-1")).1 = db0 ∧
    createAttendanceClassIfAbsent db0 1 { year := 2024, month := 1, day := 10 } = db0 :=
  session_creation_idempotent db0 1 ("CIE-1") _ (by decide) (by decide)

/-- C10: in `t_marks_list` and `view_students` the ownership check is skipped
whenever the teacher of the assignment has no linked user account: for every
authenticated user and every assignment where the teacher `user` field is null, the
request is not redirected with the access-denied message and renders the
resource. -/
theorem ownership_check_skipped_without_linked_user (db : DB)
    (userId assignId : Nat) (assignment : Assign) (t : Teacher)
    (hA : findAssign db assignId = some assignment)
    (hT : findTeacher db assignment.teacherId = some t)
    (hU : t.user = none) :
    (t_marks_list db userId assignId none).2 =
      { msgs := [], result := HttpResult.render ("t_marks_list.html") } ∧
    (view_students db userId assignId).2 =
      { msgs := [], result := HttpResult.render ("t_view_students.html") } := by
  constructor
  · simp [t_marks_list, ownerUserOf, hA, hT, hU]
  · simp [view_students, ownerUserOf, hA, hT, hU]

/-- Witness for C10: assignment 3 belongs to teacher C, who has no linked
user; user 99 gets the rendered page. -/
theorem ownership_check_skipped_without_linked_user_witness :
    (t_marks_list db0 99 3 none).2 =
      { msgs := [], result := HttpResult.render ("t_marks_list.html") } ∧
    (view_students db0 99 3).2 =
      { msgs := [], result := HttpResult.render ("t_view_students.html") } :=
  ownership_check_skipped_without_linked_user db0 99 3 assign3 teacherC
    (by decide) (by decide) (by decide)

/-- C1 counterexample: `marks_confirm`, run by the user of teacher B (20) on an
exam session of an assignment owned by teacher A (linked user 10), does not
deny access: it queues no message, redirects to the marks list rather than the
dashboard, and mutates the resource (the session becomes finalized). -/
theorem marks_confirm_no_owner_check_cex :
    ¬ DeniesAccess (marks_confirm db0 20 1 emptyNatForm) db0 ∧
    (marks_confirm db0 20 1 emptyNatForm).2 =
      { msgs := [], result := HttpResult.redirect ("t_marks_list") } ∧
    (findExamSession (marks_confirm db0 20 1 emptyNatForm).1 1).map
      ExamSession.status = some true ∧
    ((findAssign db0 1).bind (fun a => findTeacher db0 a.teacherId)).bind
      Teacher.user = some 10 := by
  unfold DeniesAccess
  decide

/-- C1 amended: among the listed orchestrators only `t_marks_list` and
`view_students` enforce object-level ownership; for those two, a requester who
is not the owner (when the owner teacher has a linked user) always gets the
error message and a redirect to the dashboard, with the database untouched. -/
theorem owner_check_denies_nonowner (db : DB) (userId assignId : Nat)
    (assignment : Assign) (t : Teacher) (u : Nat) (post : Option CreateExamPost)
    (hA : findAssign db assignId = some assignment)
    (hT : findTeacher db assignment.teacherId = some t)
    (hU : t.user = some u) (hNe : u ≠ userId) :
    DeniesAccess (t_marks_list db userId assignId post) db ∧
    DeniesAccess (view_students db userId assignId) db := by
  constructor
  · simp [t_marks_list, ownerUserOf, hA, hT, hU, DeniesAccess, hNe]
  · simp [view_students, ownerUserOf, hA, hT, hU, DeniesAccess, hNe]

/-- Witness for the amended C1: the user of teacher B (20) is denied on
assignment 1 of teacher A by both views. -/
theorem owner_check_denies_nonowner_witness :
    DeniesAccess (t_marks_list db0 20 1 none) db0 ∧
    DeniesAccess (view_students db0 20 1) db0 :=
  owner_check_denies_nonowner db0 20 1 assign1 teacherA 10 none
    (by decide) (by decide) (by decide) (by decide)

/-- Membership in the qualified-free list implies the teacher passed the free
test and the qualification test. -/
theorem mem_partitionFreeTeachers_fst {db : DB} {slot : AssignTime}
    {subjectId : Nat} {t : Teacher} :
    ∀ {ts : List Teacher}, t ∈ (partitionFreeTeachers db slot subjectId ts).1 →
      isBusy db t slot = false ∧ hasSubjectKnowledge db t subjectId = true := by
  intro ts
  induction ts with
  | nil => intro h; simp [partitionFreeTeachers] at h
  | cons x xs ih =>
    intro h
    simp only [partitionFreeTeachers] at h
    by_cases hb : isBusy db x slot
    · rw [if_neg (by simp [hb])] at h
      exact ih h
    · rw [if_pos (by simp [hb])] at h
      by_cases hk : hasSubjectKnowledge db x subjectId
      · rw [if_pos hk] at h
        rcases List.mem_cons.mp h with h1 | h1
        · subst h1; exact ⟨by simpa using hb, hk⟩
        · exact ih h1
      · rw [if_neg hk] at h
        exact ih h

/-- Membership in the unqualified-free list implies the teacher passed the
free test and failed the qualification test. -/
theorem mem_partitionFreeTeachers_snd {db : DB} {slot : AssignTime}
    {subjectId : Nat} {t : Teacher} :
    ∀ {ts : List Teacher}, t ∈ (partitionFreeTeachers db slot subjectId ts).2 →
      isBusy db t slot = false ∧ hasSubjectKnowledge db t subjectId = false := by
  intro ts
  induction ts with
  | nil => intro h; simp [partitionFreeTeachers] at h
  | cons x xs ih =>
    intro h
    simp only [partitionFreeTeachers] at h
    by_cases hb : isBusy db x slot
    · rw [if_neg (by simp [hb])] at h
      exact ih h
    · rw [if_pos (by simp [hb])] at h
      by_cases hk : hasSubjectKnowledge db x subjectId
      · rw [if_pos hk] at h
        exact ih h
      · rw [if_neg hk] at h
        rcases List.mem_cons.mp h with h1 | h1
        · subst h1; exact ⟨by simpa using hb, by simpa using hk⟩
        · exact ih h1

/-- C4: in the `free_teachers` output, a teacher with any scheduled
`AssignTime` at the queried (day, period) appears in neither free list, and a
teacher with no `Assign` row for the required subject never appears in the
qualified-free list. -/
theorem free_teachers_excludes (db : DB) (asstId : Nat) (slot : AssignTime)
    (assOfSlot : Assign) (ft nk : List Teacher) (t : Teacher)
    (hS : findAssignTime db asstId = some slot)
    (hOf : findAssign db slot.assignId = some assOfSlot)
    (hL : free_teachers_lists db asstId = some (ft, nk)) :
    ((∃ r ∈ teacherAssignTimes db t,
        r.day = slot.day ∧ r.period = slot.period) → t ∉ ft ∧ t ∉ nk) ∧
    ((¬ ∃ a ∈ db.assigns,
        a.teacherId = t.id ∧ a.subjectId = assOfSlot.subjectId) → t ∉ ft) := by
  have hpair : partitionFreeTeachers db slot assOfSlot.subjectId
      (teachersOfClass db assOfSlot.classId) = (ft, nk) := by
    unfold free_teachers_lists at hL
    simp only [hS, hOf, Option.some.injEq] at hL
    exact hL
  have hft : ft = (partitionFreeTeachers db slot assOfSlot.subjectId
      (teachersOfClass db assOfSlot.classId)).1 := by rw [hpair]
  have hnk2 : nk = (partitionFreeTeachers db slot assOfSlot.subjectId
      (teachersOfClass db assOfSlot.classId)).2 := by rw [hpair]
  constructor
  · intro hbusy
    have hb : isBusy db t slot = true := by
      unfold isBusy
      rw [List.any_eq_true]
      obtain ⟨r, hr, hd, hp⟩ := hbusy
      exact ⟨r, hr, by simp [hd, hp]⟩
    constructor
    · intro hmem
      rw [hft] at hmem
      have := (mem_partitionFreeTeachers_fst hmem).1
      rw [hb] at this
      simp at this
    · intro hmem
      rw [hnk2] at hmem
      have := (mem_partitionFreeTeachers_snd hmem).1
      rw [hb] at this
      simp at this
  · intro hnk hmem
    rw [hft] at hmem
    have hk := (mem_partitionFreeTeachers_fst hmem).2
    unfold hasSubjectKnowledge at hk
    rw [List.any_eq_true] at hk
    obtain ⟨a, ha, hpa⟩ := hk
    exact hnk ⟨a, ha, by simpa using hpa⟩

/-- Witness for C4: teacher B has a slot at (Monday, 8:30 - 9:30), the
queried slot of `slotA`, so B is in neither free list; teacher C has no
assignment for subject 1, so C is not in the qualified-free list. -/
theorem free_teachers_excludes_witness :
    (teacherB ∉ (free_teachers_lists db0 1).iget.1 ∧
     teacherB ∉ (free_teachers_lists db0 1).iget.2) ∧
    teacherC ∉ (free_teachers_lists db0 1).iget.1 := by
  have h1 := free_teachers_excludes db0 1 slotA assign1
    (free_teachers_lists db0 1).iget.1 (free_teachers_lists db0 1).iget.2 teacherB
    (by decide) (by decide) (by decide)
  have h2 := free_teachers_excludes db0 1 slotA assign1
    (free_teachers_lists db0 1).iget.1 (free_teachers_lists db0 1).iget.2 teacherC
    (by decide) (by decide) (by decide)
  exact ⟨h1.1 (by decide), h2.2 (by decide)⟩

/-- The upsert leaves rows of other students untouched. -/
theorem upsertAttendance_preserves {atts : List Attendance} {a : Attendance}
    (s : Student) (subjectId asscId : Nat) (d : DateYMD) (st : Bool)
    (ha : a ∈ atts) (hne : a.studentId ≠ s.id) :
    a ∈ upsertAttendance atts s subjectId asscId d st := by
  unfold upsertAttendance
  split
  · rw [List.mem_map]
    refine ⟨a, ha, ?_⟩
    rw [if_neg (by simp [hne])]
  · exact List.mem_append_left _ ha

/-- The upsert puts a row for the given key with the given status into the
table. -/
theorem upsertAttendance_mem_self (atts : List Attendance) (s : Student)
    (subjectId asscId : Nat) (d : DateYMD) (st : Bool) :
    ∃ a ∈ upsertAttendance atts s subjectId asscId d st,
      a.studentId = s.id ∧ a.subjectId = subjectId ∧
      a.attendanceClassId = asscId ∧ a.date = d ∧ a.status = st := by
  unfold upsertAttendance
  split
  · rename_i hany
    rw [List.any_eq_true] at hany
    obtain ⟨x, hx, hkey⟩ := hany
    simp only [Bool.and_eq_true, beq_iff_eq] at hkey
    obtain ⟨⟨⟨h1, h2⟩, h3⟩, h4⟩ := hkey
    refine ⟨{ x with status := st }, ?_, h1, h2, h3, h4, rfl⟩
    rw [List.mem_map]
    refine ⟨x, hx, ?_⟩
    rw [if_pos (by simp [h1, h2, h3, h4])]
  · exact ⟨{ studentId := s.id, subjectId := subjectId,
             attendanceClassId := asscId, date := d, status := st },
           List.mem_append_right _ (by simp), rfl, rfl, rfl, rfl, rfl⟩

/-- Rows of students outside the processed list survive the whole
confirm loop untouched. -/
theorem confirmAttendanceLoop_preserves {a : Attendance}
    (subjectId asscId : Nat) (d : DateYMD) (form : String → Option String) :
    ∀ (students : List Student) (atts : List Attendance),
      a ∈ atts → (∀ t ∈ students, a.studentId ≠ t.id) →
      a ∈ confirmAttendanceLoop atts students subjectId asscId d form := by
  intro students
  induction students with
  | nil => intro atts ha _; exact ha
  | cons t ts ih =>
    intro atts ha hne
    unfold confirmAttendanceLoop
    rw [List.foldl_cons]
    refine ih _ ?_ (fun x hx => hne x (List.mem_cons_of_mem t hx))
    exact upsertAttendance_preserves t subjectId asscId d _ ha
      (hne t (List.mem_cons_self t ts))

/-- After the confirm loop over students with pairwise-distinct ids, every
processed student has a row for the session key whose status reflects the
form. -/
theorem confirmAttendanceLoop_records (subjectId asscId : Nat) (d : DateYMD)
    (form : String → Option String) :
    ∀ (students : List Student) (atts : List Attendance),
      students.Pairwise (fun x y => x.id ≠ y.id) →
      ∀ s ∈ students, ∃ a ∈ confirmAttendanceLoop atts students subjectId asscId d form,
        a.studentId = s.id ∧ a.subjectId = subjectId ∧
        a.attendanceClassId = asscId ∧ a.date = d ∧
        a.status = (form s.usn == some ("present")) := by
  intro students
  induction students with
  | nil => intro atts _ s hs; exact absurd hs (List.not_mem_nil s)
  | cons t ts ih =>
    intro atts hpw s hs
    rw [List.pairwise_cons] at hpw
    obtain ⟨hhead, htail⟩ := hpw
    rcases List.mem_cons.mp hs with hst | hst
    · subst hst
      obtain ⟨a, hmem, hkey⟩ := upsertAttendance_mem_self atts s subjectId asscId d
        (form s.usn == some ("present"))
      unfold confirmAttendanceLoop
      rw [List.foldl_cons]
      refine ⟨a, ?_, hkey⟩
      refine confirmAttendanceLoop_preserves subjectId asscId d form ts _ hmem ?_
      intro x hx
      rw [hkey.1]
      exact hhead x hx
    · unfold confirmAttendanceLoop
      rw [List.foldl_cons]
      exact ih _ htail s hst

/-- C9: on attendance confirmation (both the `confirm` view and
the `confirm_attendance` branch of `t_class_date`), every student of the class —
including one whose USN is absent from the form — ends up with an
`Attendance` row for (student, subject, session, session date) whose status
is true exactly when the form value is `present`; a missing or different
value is recorded as absent. -/
theorem confirm_records_every_student (db : DB) (assignId asscId : Nat)
    (form : String → Option String) (assc : AttendanceClass) (assign : Assign)
    (h1 : findAttendanceClass db asscId = some assc)
    (h2 : findAssign db assc.assignId = some assign)
    (h3 : findAssign db assignId = some assign)
    (hnd : (studentsOfClass db assign.classId).Pairwise (fun x y => x.id ≠ y.id)) :
    RecordsAllStudents (confirm db asscId form).1
      (studentsOfClass db assign.classId) assign.subjectId assc.id assc.date form ∧
    RecordsAllStudents
      (t_class_date db assignId
        (some (ClassDatePost.confirmAttendance (some asscId) form))).1
      (studentsOfClass db assign.classId) assign.subjectId assc.id assc.date form := by
  have hcore : RecordsAllStudents
      (confirmAttendanceCore db assc assign.subjectId assign.classId form)
      (studentsOfClass db assign.classId) assign.subjectId assc.id assc.date form := by
    intro s hs
    exact confirmAttendanceLoop_records assign.subjectId assc.id assc.date form
      (studentsOfClass db assign.classId) db.attendances hnd s hs
  constructor
  · unfold confirm
    simp only [h1, h2]
    exact hcore
  · unfold t_class_date
    simp only [h3, h1]
    exact hcore

/-- Witness for C9: confirming session 1 of assignment 1 with a form that
marks USN1 present and omits USN2 records both students. -/
theorem confirm_records_every_student_witness :
    RecordsAllStudents (confirm db0 1 attForm0).1
      (studentsOfClass db0 1) 1 1 { year := 2024, month := 1, day := 10 } attForm0 :=
  (confirm_records_every_student db0 1 1 attForm0 attClass1 assign1
    (by decide) (by decide) (by decide) (by decide)).1

/-- In the assembled slot list, every occurrence of `9:30 - 10:30` is
immediately followed by the break marker. -/
theorem buildTimeSlots_break_adjacent :
    ∀ (bs : List String) (i : Nat),
      (buildTimeSlots bs)[i]? = some ("9:30 - 10:30") →
      (buildTimeSlots bs)[i+1]? = some BREAK_PERIOD := by
  intro bs
  induction bs with
  | nil => intro i h; simp [buildTimeSlots] at h
  | cons s rest ih =>
    intro i h
    by_cases h930 : s = "9:30 - 10:30"
    · subst h930
      rw [buildTimeSlots, if_pos rfl] at h ⊢
      match i with
      | 0 => simp
      | 1 =>
        simp only [List.getElem?_cons_succ, List.getElem?_cons_zero,
          Option.some.injEq] at h
        exact absurd h (by decide)
      | Nat.succ (Nat.succ j) =>
        simp only [List.getElem?_cons_succ] at h ⊢
        exact ih j h
    · by_cases h1240 : s = "12:40 - 1:30"
      · subst h1240
        rw [buildTimeSlots, if_neg (by decide), if_pos rfl] at h ⊢
        match i with
        | 0 =>
          simp only [List.getElem?_cons_zero, Option.some.injEq] at h
          exact absurd h (by decide)
        | 1 =>
          simp only [List.getElem?_cons_succ, List.getElem?_cons_zero,
            Option.some.injEq] at h
          exact absurd h (by decide)
        | Nat.succ (Nat.succ j) =>
          simp only [List.getElem?_cons_succ] at h ⊢
          exact ih j h
      · rw [buildTimeSlots, if_neg h930, if_neg h1240] at h ⊢
        match i with
        | 0 =>
          simp only [List.getElem?_cons_zero, Option.some.injEq] at h
          exact absurd h h930
        | Nat.succ j =>
          simp only [List.getElem?_cons_succ] at h ⊢
          exact ih j h

/-- In the assembled slot list, every occurrence of `12:40 - 1:30` is
immediately followed by the lunch marker. -/
theorem buildTimeSlots_lunch_adjacent :
    ∀ (bs : List String) (i : Nat),
      (buildTimeSlots bs)[i]? = some ("12:40 - 1:30") →
      (buildTimeSlots bs)[i+1]? = some LUNCH_PERIOD := by
  intro bs
  induction bs with
  | nil => intro i h; simp [buildTimeSlots] at h
  | cons s rest ih =>
    intro i h
    by_cases h930 : s = "9:30 - 10:30"
    · subst h930
      rw [buildTimeSlots, if_pos rfl] at h ⊢
      match i with
      | 0 =>
        simp only [List.getElem?_cons_zero, Option.some.injEq] at h
        exact absurd h (by decide)
      | 1 =>
        simp only [List.getElem?_cons_succ, List.getElem?_cons_zero,
          Option.some.injEq] at h
        exact absurd h (by decide)
      | Nat.succ (Nat.succ j) =>
        simp only [List.getElem?_cons_succ] at h ⊢
        exact ih j h
    · by_cases h1240 : s = "12:40 - 1:30"
      · subst h1240
        rw [buildTimeSlots, if_neg (by decide), if_pos rfl] at h ⊢
        match i with
        | 0 => simp
        | 1 =>
          simp only [List.getElem?_cons_succ, List.getElem?_cons_zero,
            Option.some.injEq] at h
          exact absurd h (by decide)
        | Nat.succ (Nat.succ j) =>
          simp only [List.getElem?_cons_succ] at h ⊢
          exact ih j h
      · rw [buildTimeSlots, if_neg h930, if_neg h1240] at h ⊢
        match i with
        | 0 =>
          simp only [List.getElem?_cons_zero, Option.some.injEq] at h
          exact absurd h h1240
        | Nat.succ j =>
          simp only [List.getElem?_cons_succ] at h ⊢
          exact ih j h

/-- Folding rows whose periods all differ from `p` never writes a cell in
column `p`. -/
theorem buildTimetable_avoids (days ts : List String) (p : String) :
    ∀ (rows : List AssignTime) (grid : String → String → Option Nat),
      (∀ d, grid d p = none) → (∀ r ∈ rows, r.period ≠ p) →
      ∀ d, (rows.foldl (timetableStep days ts) grid) d p = none := by
  intro rows
  induction rows with
  | nil => intro grid hg _ d; exact hg d
  | cons r rs ih =>
    intro grid hg hrows d
    rw [List.foldl_cons]
    refine ih _ ?_ (fun x hx => hrows x (List.mem_cons_of_mem r hx)) d
    intro d2
    unfold timetableStep
    split
    · dsimp only
      rw [if_neg]
      · exact hg d2
      · intro hcon
        exact hrows r (List.mem_cons_self r rs) hcon.2.symm
    · exact hg d2

/-- C8: the break marker sits immediately after the `9:30 - 10:30` slot and
the lunch marker immediately after the `12:40 - 1:30` slot in the assembled
slot list; and for every teacher schedule whose period labels come from the
teaching slot list (which contains neither marker), the grid cells at the two
marker columns stay empty. -/
theorem timetable_markers (bs days : List String) (rows : List AssignTime)
    (d : String) (i : Nat) :
    ((buildTimeSlots bs)[i]? = some ("9:30 - 10:30") →
      (buildTimeSlots bs)[i+1]? = some BREAK_PERIOD) ∧
    ((buildTimeSlots bs)[i]? = some ("12:40 - 1:30") →
      (buildTimeSlots bs)[i+1]? = some LUNCH_PERIOD) ∧
    ((∀ r ∈ rows, r.period ∈ bs) → BREAK_PERIOD ∉ bs → LUNCH_PERIOD ∉ bs →
      buildTimetable days (buildTimeSlots bs) rows d BREAK_PERIOD = none ∧
      buildTimetable days (buildTimeSlots bs) rows d LUNCH_PERIOD = none) := by
  refine ⟨buildTimeSlots_break_adjacent bs i, buildTimeSlots_lunch_adjacent bs i, ?_⟩
  intro hper hbr hlu
  constructor
  · refine buildTimetable_avoids days (buildTimeSlots bs) BREAK_PERIOD rows
      (fun _ _ => none) (fun _ => rfl) ?_ d
    intro r hr hcon
    exact hbr (hcon ▸ hper r hr)
  · refine buildTimetable_avoids days (buildTimeSlots bs) LUNCH_PERIOD rows
      (fun _ _ => none) (fun _ => rfl) ?_ d
    intro r hr hcon
    exact hlu (hcon ▸ hper r hr)

/-- Witness for C8 on the modelled slot list: index 1 holds `9:30 - 10:30`
and index 2 the break marker; index 5 holds `12:40 - 1:30` and index 6 the
lunch marker; with the fixture schedule the two marker columns are empty. -/
theorem timetable_markers_witness :
    (buildTimeSlots TIME_SLOTS)[2]? = some BREAK_PERIOD ∧
    (buildTimeSlots TIME_SLOTS)[6]? = some LUNCH_PERIOD ∧
    buildTimetable ["Monday"] (buildTimeSlots TIME_SLOTS) [slotA]
      "Monday" BREAK_PERIOD = none ∧
    buildTimetable ["Monday"] (buildTimeSlots TIME_SLOTS) [slotA]
      "Monday" LUNCH_PERIOD = none := by
  have h1 := (timetable_markers TIME_SLOTS ["Monday"] [slotA] "Monday" 1).1 (by decide)
  have h2 := (timetable_markers TIME_SLOTS ["Monday"] [slotA] "Monday" 5).2.1 (by decide)
  have h3 := (timetable_markers TIME_SLOTS ["Monday"] [slotA] "Monday" 1).2.2
    (by decide) (by decide) (by decide)
  exact ⟨h1, h2, h3.1, h3.2⟩

/-- C6 counterexample: the attendance-session creation path of `t_class_date`
performs a successful write (a new `AttendanceClass` row appears) and then
responds by re-rendering the page, not by a redirect. -/
theorem create_attendance_renders_after_write_cex :
    (t_class_date db0 1
        (some (ClassDatePost.createAttendance (some ("2024-02-01"))))).2 =
      { msgs := [], result := HttpResult.render ("t_class_date.html") } ∧
    (t_class_date db0 1
        (some (ClassDatePost.createAttendance (some ("2024-02-01"))))).1.attendanceClasses =
      db0.attendanceClasses ++
        [{ id := 2, assignId := 1, date := { year := 2024, month := 2, day := 1 },
           status := 0 }] := by
  decide

/-- C6 amended: the exam-creation POST of `t_marks_list`, the `marks_confirm`
write, and both attendance-confirmation writes always respond with a
redirect; the attendance-session creation path of `t_class_date` instead
re-renders the page after its successful write. -/
theorem write_paths_redirect :
    (∀ (db : DB) (u aId : Nat) (a : Assign) (p : CreateExamPost),
      findAssign db aId = some a →
      ((t_marks_list db u aId (some p)).2.result).isRedirect = true) ∧
    (∀ (db : DB) (u sId : Nat) (f : String → Option Nat)
        (e : ExamSession) (a : Assign),
      findExamSession db sId = some e → findAssign db e.assignId = some a →
      (marks_confirm db u sId f).2.result = HttpResult.redirect ("t_marks_list")) ∧
    (∀ (db : DB) (aId cId : Nat) (f : String → Option String)
        (a : Assign) (assc : AttendanceClass),
      findAssign db aId = some a → findAttendanceClass db cId = some assc →
      (t_class_date db aId
          (some (ClassDatePost.confirmAttendance (some cId) f))).2.result =
        HttpResult.redirect ("t_class_date")) ∧
    (∀ (db : DB) (cId : Nat) (f : String → Option String)
        (assc : AttendanceClass) (a : Assign),
      findAttendanceClass db cId = some assc →
      findAssign db assc.assignId = some a →
      (confirm db cId f).2.result = HttpResult.redirect ("t_class_date")) := by
  refine ⟨?_, ?_, ?_, ?_⟩
  · intro db u aId a p hA
    unfold t_marks_list
    simp only [hA]
    split
    · rfl
    · split
      · split
        · rfl
        · rfl
      · rfl
  · intro db u sId f e a hE hA
    unfold marks_confirm
    simp only [hE, hA]
  · intro db aId cId f a assc hA hC
    unfold t_class_date
    simp only [hA, hC]
  · intro db cId f assc a hC hA
    unfold confirm
    simp only [hC, hA]

/-- Witness for the amended C6 at the fixture: all four write paths produce
redirects. -/
theorem write_paths_redirect_witness :
    ((t_marks_list db0 10 1 (some { exam_name := some ("CIE-3") })).2.result).isRedirect
      = true ∧
    (marks_confirm db0 10 1 emptyNatForm).2.result =
      HttpResult.redirect ("t_marks_list") ∧
    (t_class_date db0 1
        (some (ClassDatePost.confirmAttendance (some 1) attForm0))).2.result =
      HttpResult.redirect ("t_class_date") ∧
    (confirm db0 1 attForm0).2.result = HttpResult.redirect ("t_class_date") :=
  ⟨write_paths_redirect.1 db0 10 1 assign1 { exam_name := some ("CIE-3") } (by decide),
   write_paths_redirect.2.1 db0 10 1 emptyNatForm examPending assign1
     (by decide) (by decide),
   write_paths_redirect.2.2.1 db0 1 1 attForm0 assign1 attClass1
     (by decide) (by decide),
   write_paths_redirect.2.2.2 db0 1 attForm0 attClass1 assign1
     (by decide) (by decide)⟩

theorem examStatusMono_of_eq {l l2 : List ExamSession} (h : l2 = l) :
    ExamStatusMono l l2 :=
  fun e he hs => ⟨e, h ▸ he, rfl, hs⟩

theorem examStatusNoNew_of_eq {l l2 : List ExamSession} (h : l2 = l) :
    ExamStatusNoNew l l2 :=
  fun e he hs => ⟨e, h ▸ he, rfl, hs⟩

theorem examStatusMono_append (l ex : List ExamSession) :
    ExamStatusMono l (l ++ ex) :=
  fun e he hs => ⟨e, List.mem_append_left _ he, rfl, hs⟩

theorem examStatusNoNew_append_false (l : List ExamSession) (n : ExamSession)
    (h : n.status = false) : ExamStatusNoNew l (l ++ [n]) := by
  intro e he hs
  rcases List.mem_append.mp he with h1 | h1
  · exact ⟨e, h1, rfl, hs⟩
  · rw [List.mem_singleton] at h1
    subst h1
    rw [h] at hs
    exact absurd hs (by simp)

theorem examStatusMono_mapSetTrue (l : List ExamSession) (i : Nat) :
    ExamStatusMono l (l.map (fun e =>
      if e.id == i then { e with status := true } else e)) := by
  intro e he hs
  refine ⟨if e.id == i then { e with status := true } else e,
    List.mem_map.mpr ⟨e, he, rfl⟩, ?_, ?_⟩
  · split <;> rfl
  · split
    · rfl
    · exact hs

theorem attClassStatusMono_of_eq {l l2 : List AttendanceClass} (h : l2 = l) :
    AttClassStatusMono l l2 :=
  fun ac hac hs => ⟨ac, h ▸ hac, rfl, hs⟩

theorem attClassStatusNoNew_of_eq {l l2 : List AttendanceClass} (h : l2 = l) :
    AttClassStatusNoNew l l2 :=
  fun ac hac hs => ⟨ac, h ▸ hac, rfl, hs⟩

theorem attClassStatusMono_append (l ex : List AttendanceClass) :
    AttClassStatusMono l (l ++ ex) :=
  fun ac hac hs => ⟨ac, List.mem_append_left _ hac, rfl, hs⟩

theorem attClassStatusNoNew_append_zero (l : List AttendanceClass)
    (n : AttendanceClass) (h : n.status = 0) :
    AttClassStatusNoNew l (l ++ [n]) := by
  intro ac hac hs
  rcases List.mem_append.mp hac with h1 | h1
  · exact ⟨ac, h1, rfl, hs⟩
  · rw [List.mem_singleton] at h1
    subst h1
    rw [h] at hs
    exact absurd hs (by simp)

theorem attClassStatusMono_mapSetOne (l : List AttendanceClass) (i : Nat) :
    AttClassStatusMono l (l.map (fun ac =>
      if ac.id == i then { ac with status := 1 } else ac)) := by
  intro ac hac hs
  refine ⟨if ac.id == i then { ac with status := 1 } else ac,
    List.mem_map.mpr ⟨ac, hac, rfl⟩, ?_, ?_⟩
  · split <;> rfl
  · split
    · rfl
    · exact hs

/-- Lemma: `getOrCreateExam` either leaves the table alone or appends one pending
session; it never touches attendance classes. -/
theorem getOrCreateExam_effect (db : DB) (aid : Nat) (name : String) :
    ExamStatusMono db.examSessions (getOrCreateExam db aid name).1.examSessions ∧
    ExamStatusNoNew db.examSessions (getOrCreateExam db aid name).1.examSessions ∧
    (getOrCreateExam db aid name).1.attendanceClasses = db.attendanceClasses := by
  unfold getOrCreateExam
  split
  · exact ⟨examStatusMono_of_eq rfl, examStatusNoNew_of_eq rfl, rfl⟩
  · exact ⟨examStatusMono_append _ _,
      examStatusNoNew_append_false _ _ rfl, rfl⟩

/-- Database effect of `t_marks_list`: finalized sessions persist, no session
becomes finalized, attendance classes untouched. -/
theorem t_marks_list_effect (db : DB) (u aId : Nat) (p : Option CreateExamPost) :
    ExamStatusMono db.examSessions (t_marks_list db u aId p).1.examSessions ∧
    ExamStatusNoNew db.examSessions (t_marks_list db u aId p).1.examSessions ∧
    (t_marks_list db u aId p).1.attendanceClasses = db.attendanceClasses := by
  unfold t_marks_list
  split
  · exact ⟨examStatusMono_of_eq rfl, examStatusNoNew_of_eq rfl, rfl⟩
  · split
    · exact ⟨examStatusMono_of_eq rfl, examStatusNoNew_of_eq rfl, rfl⟩
    · split
      · split
        · split
          · exact getOrCreateExam_effect db _ _
          · exact ⟨examStatusMono_of_eq rfl, examStatusNoNew_of_eq rfl, rfl⟩
        · exact ⟨examStatusMono_of_eq rfl, examStatusNoNew_of_eq rfl, rfl⟩
      · exact ⟨examStatusMono_of_eq rfl, examStatusNoNew_of_eq rfl, rfl⟩

/-- Database effect of `marks_confirm`: it only ever raises the status of a
session to finalized and leaves attendance classes untouched. -/
theorem marks_confirm_effect (db : DB) (u sId : Nat) (f : String → Option Nat) :
    ExamStatusMono db.examSessions (marks_confirm db u sId f).1.examSessions ∧
    (marks_confirm db u sId f).1.attendanceClasses = db.attendanceClasses := by
  unfold marks_confirm
  split
  · exact ⟨examStatusMono_of_eq rfl, rfl⟩
  · split
    · exact ⟨examStatusMono_of_eq rfl, rfl⟩
    · exact ⟨examStatusMono_mapSetTrue _ _, rfl⟩

/-- Lemma: `createAttendanceClassIfAbsent` leaves exam sessions alone and only ever
appends a Not-Marked attendance class. -/
theorem createAttendanceClassIfAbsent_effect (db : DB) (aid : Nat) (d : DateYMD) :
    (createAttendanceClassIfAbsent db aid d).examSessions = db.examSessions ∧
    AttClassStatusMono db.attendanceClasses
      (createAttendanceClassIfAbsent db aid d).attendanceClasses ∧
    AttClassStatusNoNew db.attendanceClasses
      (createAttendanceClassIfAbsent db aid d).attendanceClasses := by
  unfold createAttendanceClassIfAbsent
  split
  · exact ⟨rfl, attClassStatusMono_of_eq rfl, attClassStatusNoNew_of_eq rfl⟩
  · exact ⟨rfl, attClassStatusMono_append _ _,
      attClassStatusNoNew_append_zero _ _ rfl⟩

/-- Database effect of `t_class_date`: exam sessions unchanged; marked
attendance classes persist; unless the POST is `confirm_attendance`, no
attendance class becomes marked. -/
theorem t_class_date_effect (db : DB) (aId : Nat) (p : Option ClassDatePost) :
    (t_class_date db aId p).1.examSessions = db.examSessions ∧
    AttClassStatusMono db.attendanceClasses
      (t_class_date db aId p).1.attendanceClasses ∧
    (isAttendanceConfirmOp (Op.tClassDateOp aId p) = false →
      AttClassStatusNoNew db.attendanceClasses
        (t_class_date db aId p).1.attendanceClasses) := by
  unfold t_class_date
  split
  · exact ⟨rfl, attClassStatusMono_of_eq rfl, fun _ => attClassStatusNoNew_of_eq rfl⟩
  · split
    · split
      · exact ⟨rfl, attClassStatusMono_of_eq rfl, fun _ => attClassStatusNoNew_of_eq rfl⟩
      · split
        · exact ⟨rfl, attClassStatusMono_of_eq rfl, fun _ => attClassStatusNoNew_of_eq rfl⟩
        · refine ⟨(createAttendanceClassIfAbsent_effect db _ _).1,
            (createAttendanceClassIfAbsent_effect db _ _).2.1,
            fun _ => (createAttendanceClassIfAbsent_effect db _ _).2.2⟩
    · split
      · exact ⟨rfl, attClassStatusMono_of_eq rfl, fun _ => attClassStatusNoNew_of_eq rfl⟩
      · split
        · exact ⟨rfl, attClassStatusMono_of_eq rfl, fun _ => attClassStatusNoNew_of_eq rfl⟩
        · refine ⟨rfl, attClassStatusMono_mapSetOne _ _, fun h => ?_⟩
          exact absurd h (by simp [isAttendanceConfirmOp])
    · split
      · exact ⟨rfl, attClassStatusMono_of_eq rfl, fun _ => attClassStatusNoNew_of_eq rfl⟩
      · split
        · exact ⟨rfl, attClassStatusMono_of_eq rfl, fun _ => attClassStatusNoNew_of_eq rfl⟩
        · exact ⟨rfl, attClassStatusMono_of_eq rfl, fun _ => attClassStatusNoNew_of_eq rfl⟩
    · exact ⟨rfl, attClassStatusMono_of_eq rfl, fun _ => attClassStatusNoNew_of_eq rfl⟩

/-- Database effect of `confirm`: exam sessions unchanged; it only ever
raises the status of an attendance class to Marked. -/
theorem confirm_effect (db : DB) (cId : Nat) (f : String → Option String) :
    (confirm db cId f).1.examSessions = db.examSessions ∧
    AttClassStatusMono db.attendanceClasses
      (confirm db cId f).1.attendanceClasses := by
  unfold confirm
  split
  · exact ⟨rfl, attClassStatusMono_of_eq rfl⟩
  · split
    · exact ⟨rfl, attClassStatusMono_of_eq rfl⟩
    · exact ⟨rfl, attClassStatusMono_mapSetOne _ _⟩

/-- Lemma: `view_students` never writes. -/
theorem view_students_db_unchanged (db : DB) (u aId : Nat) :
    (view_students db u aId).1 = db := by
  unfold view_students
  split
  · rfl
  · split
    · rfl
    · rfl

/-- C7: across all operations of the module, `ExamSession.status` only ever
goes from Pending (false) to Finalized (true) — a session finalized before an
operation is still finalized after it, and only the marks-confirm path
produces a finalized session that was not finalized before — and
`AttendanceClass.status` only ever goes from NotMarked (0) to Marked (1),
written 1 only by the attendance-confirm paths. -/
theorem status_flags_one_directional (db : DB) (op : Op) :
    ExamStatusMono db.examSessions (applyOp db op).examSessions ∧
    (isMarksConfirmOp op = false →
      ExamStatusNoNew db.examSessions (applyOp db op).examSessions) ∧
    AttClassStatusMono db.attendanceClasses (applyOp db op).attendanceClasses ∧
    (isAttendanceConfirmOp op = false →
      AttClassStatusNoNew db.attendanceClasses (applyOp db op).attendanceClasses) := by
  cases op with
  | tMarksListOp u a p =>
    obtain ⟨h1, h2, h3⟩ := t_marks_list_effect db u a p
    exact ⟨h1, fun _ => h2, attClassStatusMono_of_eq h3,
      fun _ => attClassStatusNoNew_of_eq h3⟩
  | marksConfirmOp u s f =>
    obtain ⟨h1, h3⟩ := marks_confirm_effect db u s f
    refine ⟨h1, fun h => absurd h (by simp [isMarksConfirmOp]),
      attClassStatusMono_of_eq h3, fun _ => attClassStatusNoNew_of_eq h3⟩
  | tClassDateOp a p =>
    obtain ⟨h1, h2, h3⟩ := t_class_date_effect db a p
    exact ⟨examStatusMono_of_eq h1, fun _ => examStatusNoNew_of_eq h1, h2, h3⟩
  | confirmOp c f =>
    obtain ⟨h1, h2⟩ := confirm_effect db c f
    refine ⟨examStatusMono_of_eq h1, fun _ => examStatusNoNew_of_eq h1, h2,
      fun h => absurd h (by simp [isAttendanceConfirmOp])⟩
  | viewStudentsOp u a =>
    have h := view_students_db_unchanged db u a
    rw [show applyOp db (Op.viewStudentsOp u a) = (view_students db u a).1 from rfl, h]
    exact ⟨examStatusMono_of_eq rfl, fun _ => examStatusNoNew_of_eq rfl,
      attClassStatusMono_of_eq rfl, fun _ => attClassStatusNoNew_of_eq rfl⟩
  | teacherDashboardOp =>
    exact ⟨examStatusMono_of_eq rfl, fun _ => examStatusNoNew_of_eq rfl,
      attClassStatusMono_of_eq rfl, fun _ => attClassStatusNoNew_of_eq rfl⟩
  | tClasOp =>
    exact ⟨examStatusMono_of_eq rfl, fun _ => examStatusNoNew_of_eq rfl,
      attClassStatusMono_of_eq rfl, fun _ => attClassStatusNoNew_of_eq rfl⟩
  | tMarksEntryOp =>
    exact ⟨examStatusMono_of_eq rfl, fun _ => examStatusNoNew_of_eq rfl,
      attClassStatusMono_of_eq rfl, fun _ => attClassStatusNoNew_of_eq rfl⟩
  | editMarksOp =>
    exact ⟨examStatusMono_of_eq rfl, fun _ => examStatusNoNew_of_eq rfl,
      attClassStatusMono_of_eq rfl, fun _ => attClassStatusNoNew_of_eq rfl⟩
  | tTimetableOp =>
    exact ⟨examStatusMono_of_eq rfl, fun _ => examStatusNoNew_of_eq rfl,
      attClassStatusMono_of_eq rfl, fun _ => attClassStatusNoNew_of_eq rfl⟩
  | freeTeachersOp =>
    exact ⟨examStatusMono_of_eq rfl, fun _ => examStatusNoNew_of_eq rfl,
      attClassStatusMono_of_eq rfl, fun _ => attClassStatusNoNew_of_eq rfl⟩
  | tAttendanceOp =>
    exact ⟨examStatusMono_of_eq rfl, fun _ => examStatusNoNew_of_eq rfl,
      attClassStatusMono_of_eq rfl, fun _ => attClassStatusNoNew_of_eq rfl⟩
  | editAttOp =>
    exact ⟨examStatusMono_of_eq rfl, fun _ => examStatusNoNew_of_eq rfl,
      attClassStatusMono_of_eq rfl, fun _ => attClassStatusNoNew_of_eq rfl⟩
  | viewAttOp =>
    exact ⟨examStatusMono_of_eq rfl, fun _ => examStatusNoNew_of_eq rfl,
      attClassStatusMono_of_eq rfl, fun _ => attClassStatusNoNew_of_eq rfl⟩
  | tReportOp =>
    exact ⟨examStatusMono_of_eq rfl, fun _ => examStatusNoNew_of_eq rfl,
      attClassStatusMono_of_eq rfl, fun _ => attClassStatusNoNew_of_eq rfl⟩

/-- Witness for C7: the exam-creation operation `op0` keeps all status
guarantees on the fixture database. -/
theorem status_flags_one_directional_witness :
    ExamStatusMono db0.examSessions (applyOp db0 op0).examSessions ∧
    ExamStatusNoNew db0.examSessions (applyOp db0 op0).examSessions ∧
    AttClassStatusMono db0.attendanceClasses (applyOp db0 op0).attendanceClasses ∧
    AttClassStatusNoNew db0.attendanceClasses (applyOp db0 op0).attendanceClasses :=
  ⟨(status_flags_one_directional db0 op0).1,
   (status_flags_one_directional db0 op0).2.1 rfl,
   (status_flags_one_directional db0 op0).2.2.1,
   (status_flags_one_directional db0 op0).2.2.2 rfl⟩

end SchoolMgmt
